import Mathlib

/-!
Shallow embedding of `src/ingest.py`, a CSV-to-SQL-Server bulk loader.

The script consists of one procedure, `load_csv_to_sql_server`, and a CLI
entry point `main`.  The procedure checks that the input path is a file,
parses the CSV with pandas, builds an ODBC connection string (trusted or
credential mode), opens a pyodbc connection, writes the dataframe with
`DataFrame.to_sql` under an `if_exists` policy, runs a two-tier row-count
verification, prints a final success line, and closes the connection in a
`finally` block guarded by `'conn' in locals()`.

External effects (filesystem, pandas parsing, the ODBC driver, the two
verification queries) are supplied by an `Env` record; a run is a pure
function from the environment, the arguments and the initial database
state to a `RunResult` recording the termination mode, the printed lines,
whether parsing was attempted, the connection string built, the number of
times the explicitly managed pyodbc connection was opened and closed, and
the final database state.
-/

set_option autoImplicit false

namespace Ingest

/-- In-memory tabular dataset: the pandas DataFrame produced by
`pd.read_csv` — ordered column names and rows of (untyped, here opaque
string) cells. -/
structure Dataset where
  columns : List String
  rows : List (List String)
deriving DecidableEq, Repr

/-- Pandas `DataFrame.empty`: true when any axis has length zero (a
header-only CSV parses to zero rows, hence an empty frame). -/
def Dataset.empty (d : Dataset) : Bool :=
  d.rows.isEmpty || d.columns.isEmpty

/-- Destination database state: an association of table names to stored
tables. -/
abbrev Db := List (String × Dataset)

/-- Look a table up by name. -/
def Db.lookup : Db → String → Option Dataset
  | [], _ => none
  | (t', d) :: rest, t => if t' = t then some d else Db.lookup rest t

/-- Store a table under a name, replacing any existing binding. -/
def Db.set : Db → String → Dataset → Db
  | [], t, d => [(t, d)]
  | (t', d') :: rest, t, d =>
      if t' = t then (t, d) :: rest else (t', d') :: Db.set rest t d

/-- The `if_exists` conflict policy accepted by `DataFrame.to_sql`. -/
inductive IfExists
  | fail
  | replace
  | append
deriving DecidableEq, Repr

/-- How a call to `load_csv_to_sql_server` terminates: a normal return, or
an uncaught exception — the `FileNotFoundError` raised by the existence
check (line 15) or the `ValueError` raised by the credential check
(line 36).  Neither raise is enclosed by a handler in the script, so both
propagate out of `main` and terminate the process abnormally. -/
inductive Outcome
  | returned
  | raisedFileNotFound (msg : String)
  | raisedInvalidConfig (msg : String)
deriving DecidableEq, Repr

/-- External behaviour the script depends on: the `os.path.isfile` check,
`pd.read_csv` (applied to path, delimiter and encoding; an `error` is the
exception text), `pyodbc.connect` (`connectErr = some msg` means the
connect call raises `msg`), a driver-side failure of the `to_sql` write,
and the results of the two verification count queries (an `error` is the
exception text of the failed query). -/
structure Env where
  isFile : String → Bool
  readCsv : String → String → String → Except String Dataset
  connectErr : Option String
  toSqlErr : Option String
  verify1 : Except String Nat
  verify2 : Except String Nat

/-- The parameters of `load_csv_to_sql_server` (lines 8-10).  Python
falsy-string credentials (`None` or `""`) are modelled by `""`. -/
structure Args where
  csvPath : String
  tableName : String
  server : String
  database : String
  username : String
  password : String
  trustedConnection : Bool
  delimiter : String
  encoding : String
  ifExists : IfExists

/-- Observable result of one call: termination mode, lines printed to
stdout in order, whether `pd.read_csv` was invoked, the connection string
built (if construction was reached and succeeded), how many times the
pyodbc connection was opened and closed, and the final database state. -/
structure RunResult where
  outcome : Outcome
  printed : List String
  csvReadAttempted : Bool
  connectionString : Option String
  connOpens : Nat
  connCloses : Nat
  db : Db

/-- Connection-string construction (lines 32-37).  Trusted mode encodes
integrated authentication and never reads the credentials; credential mode
raises `ValueError` when either credential is falsy (empty). -/
def buildConnectionString (server database : String) (trusted : Bool)
    (username password : String) : Except String String :=
  if trusted then
    Except.ok ("DRIVER=\x7bODBC Driver 17 for SQL Server\x7d;SERVER=" ++ server ++
      ";DATABASE=" ++ database ++ ";Trusted_Connection=yes;")
  else if username = "" || password = "" then
    Except.error "Username and password are required when not using trusted connection"
  else
    Except.ok ("DRIVER=\x7bODBC Driver 17 for SQL Server\x7d;SERVER=" ++ server ++
      ";DATABASE=" ++ database ++ ";UID=" ++ username ++ ";PWD=" ++ password)

/-- `DataFrame.to_sql` (line 50) against the modelled database, under the
`if_exists` policy; `envErr` stands for a driver/connectivity failure of
the write.  `replace` drops and recreates the table, `fail` raises when
the table already exists, `append` extends an existing table of identical
schema and raises on a schema mismatch. -/
def toSql (df : Dataset) (tbl : String) (mode : IfExists)
    (envErr : Option String) (db : Db) : Except String Db :=
  match envErr with
  | some msg => Except.error msg
  | none =>
    match Db.lookup db tbl with
    | none => Except.ok (Db.set db tbl df)
    | some existing =>
      match mode with
      | IfExists.fail => Except.error ("Table '" ++ tbl ++ "' already exists.")
      | IfExists.replace => Except.ok (Db.set db tbl df)
      | IfExists.append =>
          if existing.columns = df.columns then
            Except.ok (Db.set db tbl ⟨existing.columns, existing.rows ++ df.rows⟩)
          else Except.error ("schema mismatch appending to table '" ++ tbl ++ "'")

/-- The two-tier verification block (lines 53-68): the primary query's
count is printed if it succeeds; otherwise its error and the fallback
attempt are printed, and if the fallback also fails the run reports that
verification was not possible.  The queries are read-only: they never
touch the database state. -/
def verifyPrints (env : Env) : List String :=
  match env.verify1 with
  | Except.ok n => ["Verification: Table has " ++ toString n ++ " rows"]
  | Except.error ve =>
      ["Verification error: " ++ ve,
       "Trying alternative verification method..."] ++
      match env.verify2 with
      | Except.ok n => ["Verification: Table has " ++ toString n ++ " rows"]
      | Except.error ve2 =>
          ["Alternative verification failed: " ++ ve2,
           "Data may have been inserted, but verification was not possible"]

/-- The `try`/`except`/`finally` block of lines 39-78: connect, write with
`to_sql`, verify, print the final success line with the source dataframe's
row count, and close the connection in `finally` exactly when
`pyodbc.connect` succeeded (`'conn' in locals()`). -/
def runLoadPhase (env : Env) (a : Args) (db : Db) (df : Dataset)
    (printed : List String) (connStr : String) : RunResult :=
  let pConn := printed ++ ["Connecting to SQL Server..."]
  match env.connectErr with
  | some msg =>
      { outcome := Outcome.returned
        printed := pConn ++ ["Error: " ++ msg]
        csvReadAttempted := true
        connectionString := some connStr
        connOpens := 0
        connCloses := 0
        db := db }
  | none =>
      let pLoad := pConn ++ ["Loading data into " ++ a.tableName ++ " table..."]
      match toSql df a.tableName a.ifExists env.toSqlErr db with
      | Except.error msg =>
          { outcome := Outcome.returned
            printed := pLoad ++ ["Error: " ++ msg, "SQL Server connection closed"]
            csvReadAttempted := true
            connectionString := some connStr
            connOpens := 1
            connCloses := 1
            db := db }
      | Except.ok db2 =>
          { outcome := Outcome.returned
            printed := pLoad ++ verifyPrints env ++
              ["Successfully loaded " ++ toString df.rows.length ++
                 " rows into " ++ a.tableName,
               "SQL Server connection closed"]
            csvReadAttempted := true
            connectionString := some connStr
            connOpens := 1
            connCloses := 1
            db := db2 }

/-- The procedure `load_csv_to_sql_server` (lines 8-78): existence check
(raises `FileNotFoundError` when the path is not a file), CSV parsing
(parse errors are caught and printed; an empty frame prints a warning and
returns without loading), connection-string construction (raises
`ValueError` in credential mode with a falsy credential), then the
connect/load/verify/close phase. -/
def load_csv_to_sql_server (env : Env) (a : Args) (db : Db) : RunResult :=
  if env.isFile a.csvPath then
    let p0 := ["Reading data from " ++ a.csvPath ++ "..."]
    match env.readCsv a.csvPath a.delimiter a.encoding with
    | Except.error msg =>
        { outcome := Outcome.returned
          printed := p0 ++ ["Error reading CSV: " ++ msg]
          csvReadAttempted := true
          connectionString := none
          connOpens := 0
          connCloses := 0
          db := db }
    | Except.ok df =>
        if df.empty then
          { outcome := Outcome.returned
            printed := p0 ++ ["WARNING: The CSV file has no data!"]
            csvReadAttempted := true
            connectionString := none
            connOpens := 0
            connCloses := 0
            db := db }
        else
          let p1 := p0 ++
            ["CSV loaded: " ++ toString df.rows.length ++ " rows and " ++
               toString df.columns.length ++ " columns",
             "Column names: " ++ String.intercalate ", " df.columns,
             "First few rows: \n" ++
               String.intercalate "\n" ((df.rows.take 3).map (String.intercalate " "))]
          match buildConnectionString a.server a.database a.trustedConnection
              a.username a.password with
          | Except.error msg =>
              { outcome := Outcome.raisedInvalidConfig msg
                printed := p1
                csvReadAttempted := true
                connectionString := none
                connOpens := 0
                connCloses := 0
                db := db }
          | Except.ok cs => runLoadPhase env a db df p1 cs
  else
    { outcome := Outcome.raisedFileNotFound ("CSV file not found: " ++ a.csvPath)
      printed := []
      csvReadAttempted := false
      connectionString := none
      connOpens := 0
      connCloses := 0
      db := db }

/-- The argparse result of `main` (lines 81-93): `username`/`password` are
`none` when the flag is absent, `some s` when supplied (possibly as the
empty string). -/
structure CliArgs where
  csv_file : String
  table_name : String
  server : String
  database : String
  username : Option String
  password : Option String
  trusted_connection : Bool
  delimiter : String
  if_exists : IfExists

/-- Python `x or d` applied to an optional string: `None` and the empty
string are falsy and yield the default. -/
def pyOr (s : Option String) (dflt : String) : String :=
  match s with
  | none => dflt
  | some v => if v = "" then dflt else v

/-- The call `main` makes (lines 95-105): forwards the parsed arguments,
substituting the hardcoded fallback pair `sa` / `P@ssw0rd!` for a missing
or empty username/password, and leaving the encoding at its
`utf-8` default. -/
def mainRun (env : Env) (c : CliArgs) (db : Db) : RunResult :=
  load_csv_to_sql_server env
    { csvPath := c.csv_file
      tableName := c.table_name
      server := c.server
      database := c.database
      username := pyOr c.username "sa"
      password := pyOr c.password "P@ssw0rd!"
      trustedConnection := c.trusted_connection
      delimiter := c.delimiter
      encoding := "utf-8"
      ifExists := c.if_exists } db

/-! Helper lemmas shared by the claim theorems. -/

/-- Connection-string construction only fails in credential mode with a
falsy credential. -/
theorem buildConnectionString_error_elim (server database : String)
    (trusted : Bool) (u p : String) (msg : String)
    (h : buildConnectionString server database trusted u p = Except.error msg) :
    trusted = false ∧ (u = "" ∨ p = "") := by
  cases trusted
  · by_cases hu : u = ""
    · exact ⟨rfl, Or.inl hu⟩
    · by_cases hp : p = ""
      · exact ⟨rfl, Or.inr hp⟩
      · simp [buildConnectionString, hu, hp] at h
  · simp [buildConnectionString] at h

/-- Trusted mode, or both credentials non-empty, makes connection-string
construction succeed. -/
theorem buildConnectionString_ok_of_cred (server database : String)
    (trusted : Bool) (u p : String)
    (h : trusted = true ∨ (u ≠ "" ∧ p ≠ "")) :
    ∃ cs, buildConnectionString server database trusted u p = Except.ok cs := by
  cases hb : buildConnectionString server database trusted u p with
  | ok cs => exact ⟨cs, rfl⟩
  | error msg =>
      obtain ⟨htr, hcred⟩ :=
        buildConnectionString_error_elim server database trusted u p msg hb
      rcases h with h | ⟨hu, hp⟩
      · rw [h] at htr
        cases htr
      · rcases hcred with hc | hc
        · exact absurd hc hu
        · exact absurd hc hp

/-- Looking up the key just stored returns the stored table. -/
theorem Db.lookup_set_self (db : Db) (t : String) (d : Dataset) :
    Db.lookup (Db.set db t d) t = some d := by
  induction db with
  | nil => simp [Db.set, Db.lookup]
  | cons hd rest ih =>
      by_cases h : hd.1 = t
      · simp [Db.set, Db.lookup, h]
      · simpa [Db.set, Db.lookup, h] using ih

/-- With the `replace` policy and no driver failure, the write always
succeeds and stores exactly the incoming dataset. -/
theorem toSql_replace_ok (df : Dataset) (tbl : String) (db : Db) :
    toSql df tbl IfExists.replace none db = Except.ok (Db.set db tbl df) := by
  unfold toSql
  cases Db.lookup db tbl <;> rfl

/-- On the success path (file present, parse succeeded on a non-empty
frame, credentials acceptable, connect succeeded, write succeeded) the
final database state is the written one and the output ends with the
success line — whose count is the source dataframe's row count — followed
by the connection-closed line, for every behaviour of the two verification
queries. -/
theorem load_success_spec (env : Env) (a : Args) (db : Db) (df : Dataset)
    (db2 : Db)
    (h1 : env.isFile a.csvPath = true)
    (h2 : env.readCsv a.csvPath a.delimiter a.encoding = Except.ok df)
    (h3 : df.empty = false)
    (hcred : a.trustedConnection = true ∨ (a.username ≠ "" ∧ a.password ≠ ""))
    (h4 : env.connectErr = none)
    (h5 : toSql df a.tableName a.ifExists env.toSqlErr db = Except.ok db2) :
    (load_csv_to_sql_server env a db).db = db2 ∧
    ∃ pre, (load_csv_to_sql_server env a db).printed
        = pre ++ ["Successfully loaded " ++ toString df.rows.length ++
                    " rows into " ++ a.tableName,
                  "SQL Server connection closed"] := by
  obtain ⟨cs, hcs⟩ := buildConnectionString_ok_of_cred a.server a.database
    a.trustedConnection a.username a.password hcred
  unfold load_csv_to_sql_server runLoadPhase
  simp only [h1, if_true, h2, h3, Bool.false_eq_true, if_false, hcs, h4, h5]
  refine ⟨by trivial, ?_, ?_⟩
  · exact (["Reading data from " ++ a.csvPath ++ "...",
      "CSV loaded: " ++ toString df.rows.length ++ " rows and " ++
        toString df.columns.length ++ " columns",
      "Column names: " ++ String.intercalate ", " df.columns,
      "First few rows: \n" ++
        String.intercalate "\n" ((df.rows.take 3).map (String.intercalate " ")),
      "Connecting to SQL Server...",
      "Loading data into " ++ a.tableName ++ " table..."] ++ verifyPrints env)
  · simp [List.append_assoc]

/-- `x or d` never yields the empty string when the default is
non-empty. -/
theorem pyOr_ne_empty (s : Option String) (dflt : String) (h : dflt ≠ "") :
    pyOr s dflt ≠ "" := by
  cases s with
  | none => simpa [pyOr] using h
  | some v =>
      by_cases hv : v = "" <;> simp [pyOr, hv, h]

/-- The only way a run terminates with the `ValueError` of the credential
check is credential mode with a falsy credential. -/
theorem invalidConfig_requires_empty_cred (env : Env) (a : Args) (db : Db)
    (msg : String)
    (h : (load_csv_to_sql_server env a db).outcome = Outcome.raisedInvalidConfig msg) :
    a.trustedConnection = false ∧ (a.username = "" ∨ a.password = "") := by
  unfold load_csv_to_sql_server runLoadPhase at h
  by_cases hf : env.isFile a.csvPath
  · simp only [hf, if_true] at h
    cases hr : env.readCsv a.csvPath a.delimiter a.encoding with
    | error m => simp [hr] at h
    | ok df =>
        simp only [hr] at h
        by_cases he : df.empty
        · simp [he] at h
        · simp only [he, Bool.false_eq_true, if_false] at h
          cases hb : buildConnectionString a.server a.database
              a.trustedConnection a.username a.password with
          | error m =>
              exact buildConnectionString_error_elim a.server a.database
                a.trustedConnection a.username a.password m hb
          | ok cs =>
              simp only [hb] at h
              cases hc : env.connectErr with
              | some m => simp [hc] at h
              | none =>
                  simp only [hc] at h
                  cases ht : toSql df a.tableName a.ifExists env.toSqlErr db with
                  | error m => simp [ht] at h
                  | ok db2 => simp [ht] at h
  · simp [hf] at h

/-! Concrete fixtures used by the witness and counterexample theorems. -/

/-- A three-row, two-column dataset (the spec's running example shape). -/
def dsA : Dataset := ⟨["id", "name"], [["1", "a"], ["2", "b"], ["3", "c"]]⟩

/-- A one-row dataset over the same columns. -/
def dsB : Dataset := ⟨["id", "name"], [["9", "z"]]⟩

/-- An environment in which no path is a file. -/
def envNoFile : Env :=
  { isFile := fun _ => false
    readCsv := fun _ _ _ => Except.error "unreached"
    connectErr := none
    toSqlErr := none
    verify1 := Except.ok 0
    verify2 := Except.ok 0 }

/-- A fully healthy environment whose CSV parses to `dsA`. -/
def envOkA : Env :=
  { isFile := fun _ => true
    readCsv := fun _ _ _ => Except.ok dsA
    connectErr := none
    toSqlErr := none
    verify1 := Except.ok 3
    verify2 := Except.ok 3 }

/-- A healthy environment whose CSV parses to `dsB` and whose two
verification queries both fail. -/
def envVerifyFailB : Env :=
  { isFile := fun _ => true
    readCsv := fun _ _ _ => Except.ok dsB
    connectErr := none
    toSqlErr := none
    verify1 := Except.error "connection busy"
    verify2 := Except.error "connection busy" }

/-- Credential-mode arguments naming a missing CSV. -/
def argsMissing : Args :=
  { csvPath := "missing.csv"
    tableName := "customers"
    server := "127.0.0.1"
    database := "pythondemo"
    username := "sa"
    password := "P@ssw0rd!"
    trustedConnection := false
    delimiter := ","
    encoding := "utf-8"
    ifExists := IfExists.replace }

/-- Trusted-mode arguments for an existing CSV. -/
def argsTrusted : Args :=
  { csvPath := "data.csv"
    tableName := "customers"
    server := "127.0.0.1"
    database := "pythondemo"
    username := "sa"
    password := "P@ssw0rd!"
    trustedConnection := true
    delimiter := ","
    encoding := "utf-8"
    ifExists := IfExists.replace }

/-! Claim theorems. -/

/-- C1 counterexample: with a non-existent CSV path the run does not
return normally — the `FileNotFoundError` raised on line 15 is enclosed by
no handler, so the claim that every error is caught at the point of
occurrence and the process exits successfully is false. -/
theorem C1_counterexample :
    (load_csv_to_sql_server envNoFile argsMissing []).outcome ≠ Outcome.returned := by
  intro h
  simp [load_csv_to_sql_server, envNoFile] at h

/-- C1 (amended): once the existence check and the credential check have
passed, every error in the remaining steps — CSV parse errors, connection
failures, write failures, verification failures — is caught where it
occurs and the call returns normally; only the existence check's
`FileNotFoundError` and the credential check's `ValueError` escape
uncaught. -/
theorem C1_errors_after_checks_are_caught (env : Env) (a : Args) (db : Db)
    (hfile : env.isFile a.csvPath = true)
    (hcred : a.trustedConnection = true ∨ (a.username ≠ "" ∧ a.password ≠ "")) :
    (load_csv_to_sql_server env a db).outcome = Outcome.returned := by
  obtain ⟨cs, hcs⟩ := buildConnectionString_ok_of_cred a.server a.database
    a.trustedConnection a.username a.password hcred
  unfold load_csv_to_sql_server runLoadPhase
  simp only [hfile, if_true]
  cases hr : env.readCsv a.csvPath a.delimiter a.encoding with
  | error m => rfl
  | ok df =>
      by_cases he : df.empty
      · simp [he]
      · simp only [he, Bool.false_eq_true, if_false, hcs]
        cases hc : env.connectErr with
        | some m => rfl
        | none =>
            cases ht : toSql df a.tableName a.ifExists env.toSqlErr db with
            | error m => rfl
            | ok db2 => rfl

/-- C1 witness: a concrete healthy trusted-mode run satisfies the amended
theorem's hypotheses and returns normally. -/
theorem C1_errors_after_checks_are_caught_witness :
    envOkA.isFile argsTrusted.csvPath = true ∧
    (argsTrusted.trustedConnection = true ∨
      (argsTrusted.username ≠ "" ∧ argsTrusted.password ≠ "")) ∧
    (load_csv_to_sql_server envOkA argsTrusted []).outcome = Outcome.returned :=
  ⟨rfl, Or.inl rfl,
    C1_errors_after_checks_are_caught envOkA argsTrusted [] rfl (Or.inl rfl)⟩

/-- C2: when the path is not a file the run terminates with the
`FileNotFoundError` condition, no CSV parse is attempted, no connection
string is built, no connection is opened, and the database is
untouched. -/
theorem C2_missing_file_aborts_first (env : Env) (a : Args) (db : Db)
    (h : env.isFile a.csvPath = false) :
    (load_csv_to_sql_server env a db).outcome
        = Outcome.raisedFileNotFound ("CSV file not found: " ++ a.csvPath) ∧
    (load_csv_to_sql_server env a db).csvReadAttempted = false ∧
    (load_csv_to_sql_server env a db).connectionString = none ∧
    (load_csv_to_sql_server env a db).connOpens = 0 ∧
    (load_csv_to_sql_server env a db).db = db := by
  unfold load_csv_to_sql_server
  simp [h]

/-- C2 witness: the concrete missing-file run. -/
theorem C2_missing_file_aborts_first_witness :
    envNoFile.isFile argsMissing.csvPath = false ∧
    ((load_csv_to_sql_server envNoFile argsMissing []).outcome
        = Outcome.raisedFileNotFound ("CSV file not found: " ++ argsMissing.csvPath) ∧
     (load_csv_to_sql_server envNoFile argsMissing []).csvReadAttempted = false ∧
     (load_csv_to_sql_server envNoFile argsMissing []).connectionString = none ∧
     (load_csv_to_sql_server envNoFile argsMissing []).connOpens = 0 ∧
     (load_csv_to_sql_server envNoFile argsMissing []).db = []) :=
  ⟨rfl, C2_missing_file_aborts_first envNoFile argsMissing [] rfl⟩

/-- An environment whose CSV parses to a header-only (zero-row)
dataset. -/
def envEmptyCsv : Env :=
  { isFile := fun _ => true
    readCsv := fun _ _ _ => Except.ok ⟨["id", "name"], []⟩
    connectErr := none
    toSqlErr := none
    verify1 := Except.ok 0
    verify2 := Except.ok 0 }

/-- Credential-mode arguments with an empty password. -/
def argsNoPassword : Args :=
  { csvPath := "data.csv"
    tableName := "customers"
    server := "127.0.0.1"
    database := "pythondemo"
    username := "sa"
    password := ""
    trustedConnection := false
    delimiter := ","
    encoding := "utf-8"
    ifExists := IfExists.replace }

/-- C3: a parsed dataset with zero data rows makes the run print the
empty-file warning and return normally, with no connection string built,
no connection opened, and the database untouched. -/
theorem C3_empty_dataset_no_load (env : Env) (a : Args) (db : Db) (df : Dataset)
    (h1 : env.isFile a.csvPath = true)
    (h2 : env.readCsv a.csvPath a.delimiter a.encoding = Except.ok df)
    (h3 : df.rows = []) :
    (load_csv_to_sql_server env a db).outcome = Outcome.returned ∧
    "WARNING: The CSV file has no data!" ∈ (load_csv_to_sql_server env a db).printed ∧
    (load_csv_to_sql_server env a db).connectionString = none ∧
    (load_csv_to_sql_server env a db).connOpens = 0 ∧
    (load_csv_to_sql_server env a db).db = db := by
  have hemp : df.empty = true := by
    simp [Dataset.empty, h3]
  unfold load_csv_to_sql_server
  simp [h1, h2, hemp]

/-- C3 witness: the concrete header-only run. -/
theorem C3_empty_dataset_no_load_witness :
    envEmptyCsv.isFile argsTrusted.csvPath = true ∧
    envEmptyCsv.readCsv argsTrusted.csvPath argsTrusted.delimiter argsTrusted.encoding
      = Except.ok ⟨["id", "name"], []⟩ ∧
    (⟨["id", "name"], []⟩ : Dataset).rows = [] ∧
    ((load_csv_to_sql_server envEmptyCsv argsTrusted []).outcome = Outcome.returned ∧
     "WARNING: The CSV file has no data!"
        ∈ (load_csv_to_sql_server envEmptyCsv argsTrusted []).printed ∧
     (load_csv_to_sql_server envEmptyCsv argsTrusted []).connectionString = none ∧
     (load_csv_to_sql_server envEmptyCsv argsTrusted []).connOpens = 0 ∧
     (load_csv_to_sql_server envEmptyCsv argsTrusted []).db = []) :=
  ⟨rfl, rfl, rfl,
    C3_empty_dataset_no_load envEmptyCsv argsTrusted [] ⟨["id", "name"], []⟩ rfl rfl rfl⟩

/-- C4: in credential mode with a falsy username or password, the run
terminates with the `ValueError` of the credential check, no connection is
opened, no connection string is produced, and the database is
untouched. -/
theorem C4_missing_credentials_abort (env : Env) (a : Args) (db : Db)
    (df : Dataset)
    (h1 : env.isFile a.csvPath = true)
    (h2 : env.readCsv a.csvPath a.delimiter a.encoding = Except.ok df)
    (h3 : df.empty = false)
    (h4 : a.trustedConnection = false)
    (h5 : a.username = "" ∨ a.password = "") :
    (load_csv_to_sql_server env a db).outcome
        = Outcome.raisedInvalidConfig
            "Username and password are required when not using trusted connection" ∧
    (load_csv_to_sql_server env a db).connOpens = 0 ∧
    (load_csv_to_sql_server env a db).connectionString = none ∧
    (load_csv_to_sql_server env a db).db = db := by
  have hb : buildConnectionString a.server a.database a.trustedConnection
      a.username a.password
      = Except.error "Username and password are required when not using trusted connection" := by
    rcases h5 with h | h <;> simp [buildConnectionString, h4, h]
  unfold load_csv_to_sql_server
  simp [h1, h2, h3, hb]

/-- C4 witness: the concrete empty-password run. -/
theorem C4_missing_credentials_abort_witness :
    envOkA.isFile argsNoPassword.csvPath = true ∧
    envOkA.readCsv argsNoPassword.csvPath argsNoPassword.delimiter argsNoPassword.encoding
      = Except.ok dsA ∧
    dsA.empty = false ∧
    argsNoPassword.trustedConnection = false ∧
    (argsNoPassword.username = "" ∨ argsNoPassword.password = "") ∧
    ((load_csv_to_sql_server envOkA argsNoPassword []).outcome
        = Outcome.raisedInvalidConfig
            "Username and password are required when not using trusted connection" ∧
     (load_csv_to_sql_server envOkA argsNoPassword []).connOpens = 0 ∧
     (load_csv_to_sql_server envOkA argsNoPassword []).connectionString = none ∧
     (load_csv_to_sql_server envOkA argsNoPassword []).db = []) :=
  ⟨rfl, rfl, by decide, rfl, Or.inr rfl,
    C4_missing_credentials_abort envOkA argsNoPassword [] dsA rfl rfl (by decide)
      rfl (Or.inr rfl)⟩

/-- C5: on every path, the pyodbc connection is opened at most once and is
closed exactly as many times as it was opened — once on every path on
which `pyodbc.connect` succeeded, never otherwise. -/
theorem C5_connection_opened_once_closed_once (env : Env) (a : Args) (db : Db) :
    (load_csv_to_sql_server env a db).connOpens ≤ 1 ∧
    (load_csv_to_sql_server env a db).connCloses
      = (load_csv_to_sql_server env a db).connOpens := by
  unfold load_csv_to_sql_server runLoadPhase
  by_cases hf : env.isFile a.csvPath
  · simp only [hf, if_true]
    cases hr : env.readCsv a.csvPath a.delimiter a.encoding with
    | error m => simp
    | ok df =>
        by_cases he : df.empty
        · simp [he]
        · simp only [he, Bool.false_eq_true, if_false]
          cases hb : buildConnectionString a.server a.database
              a.trustedConnection a.username a.password with
          | error m => simp
          | ok cs =>
              cases hc : env.connectErr with
              | some m => simp
              | none =>
                  cases ht : toSql df a.tableName a.ifExists env.toSqlErr db with
                  | error m => simp
                  | ok db2 => simp
  · simp [hf]

/-- C6: after a successful write, the behaviour of the verification
queries — primary failing, fallback failing, both failing, or any counts
returned — has no effect on the outcome: the success line reporting the
load is printed and the stored table is exactly what the write produced
(the environment's `verify1`/`verify2` are unconstrained here). -/
theorem C6_verification_failure_preserves_load (env : Env) (a : Args)
    (db : Db) (df : Dataset) (db2 : Db)
    (h1 : env.isFile a.csvPath = true)
    (h2 : env.readCsv a.csvPath a.delimiter a.encoding = Except.ok df)
    (h3 : df.empty = false)
    (hcred : a.trustedConnection = true ∨ (a.username ≠ "" ∧ a.password ≠ ""))
    (h4 : env.connectErr = none)
    (h5 : toSql df a.tableName a.ifExists env.toSqlErr db = Except.ok db2) :
    ("Successfully loaded " ++ toString df.rows.length ++ " rows into " ++ a.tableName)
        ∈ (load_csv_to_sql_server env a db).printed ∧
    (load_csv_to_sql_server env a db).db = db2 := by
  obtain ⟨hdb, pre, hp⟩ := load_success_spec env a db df db2 h1 h2 h3 hcred h4 h5
  refine ⟨?_, hdb⟩
  rw [hp]
  simp

/-- C6 witness: a run in which both verification queries fail still prints
the success line and keeps the written table. -/
theorem C6_verification_failure_preserves_load_witness :
    envVerifyFailB.isFile argsTrusted.csvPath = true ∧
    envVerifyFailB.readCsv argsTrusted.csvPath argsTrusted.delimiter argsTrusted.encoding
      = Except.ok dsB ∧
    dsB.empty = false ∧
    (argsTrusted.trustedConnection = true ∨
      (argsTrusted.username ≠ "" ∧ argsTrusted.password ≠ "")) ∧
    envVerifyFailB.connectErr = none ∧
    toSql dsB argsTrusted.tableName argsTrusted.ifExists envVerifyFailB.toSqlErr []
      = Except.ok [("customers", dsB)] ∧
    (("Successfully loaded " ++ toString dsB.rows.length ++ " rows into " ++
        argsTrusted.tableName)
        ∈ (load_csv_to_sql_server envVerifyFailB argsTrusted []).printed ∧
     (load_csv_to_sql_server envVerifyFailB argsTrusted []).db = [("customers", dsB)]) :=
  ⟨rfl, rfl, by decide, Or.inl rfl, rfl, rfl,
    C6_verification_failure_preserves_load envVerifyFailB argsTrusted [] dsB
      [("customers", dsB)] rfl rfl (by decide) (Or.inl rfl) rfl rfl⟩

/-- A healthy environment whose CSV parses to `dsB` but whose primary
verification query returns a count different from the source row count. -/
def envWrongCount : Env :=
  { isFile := fun _ => true
    readCsv := fun _ _ _ => Except.ok dsB
    connectErr := none
    toSqlErr := none
    verify1 := Except.ok 42
    verify2 := Except.ok 42 }

/-- CLI arguments with no username flag and an explicitly empty password,
in credential mode. -/
def cliNoCreds : CliArgs :=
  { csv_file := "data.csv"
    table_name := "customers"
    server := "127.0.0.1"
    database := "pythondemo"
    username := none
    password := some ""
    trusted_connection := false
    delimiter := ","
    if_exists := IfExists.replace }

/-- C7: with the `replace` policy, successfully loading dataset `A` and
then dataset `B` into the same table name leaves the table holding exactly
`B` — the first load stored `A`, and the second drops and recreates rather
than appending. -/
theorem C7_replace_drops_and_recreates (env1 env2 : Env) (a1 a2 : Args)
    (db : Db) (A B : Dataset)
    (ht : a1.tableName = a2.tableName)
    (h1mode : a1.ifExists = IfExists.replace)
    (h2mode : a2.ifExists = IfExists.replace)
    (h11 : env1.isFile a1.csvPath = true)
    (h12 : env1.readCsv a1.csvPath a1.delimiter a1.encoding = Except.ok A)
    (h13 : A.empty = false)
    (h1cred : a1.trustedConnection = true ∨ (a1.username ≠ "" ∧ a1.password ≠ ""))
    (h14 : env1.connectErr = none)
    (h15 : env1.toSqlErr = none)
    (h21 : env2.isFile a2.csvPath = true)
    (h22 : env2.readCsv a2.csvPath a2.delimiter a2.encoding = Except.ok B)
    (h23 : B.empty = false)
    (h2cred : a2.trustedConnection = true ∨ (a2.username ≠ "" ∧ a2.password ≠ ""))
    (h24 : env2.connectErr = none)
    (h25 : env2.toSqlErr = none) :
    Db.lookup (load_csv_to_sql_server env1 a1 db).db a2.tableName = some A ∧
    Db.lookup (load_csv_to_sql_server env2 a2
        (load_csv_to_sql_server env1 a1 db).db).db a2.tableName = some B := by
  have ht1 : toSql A a1.tableName a1.ifExists env1.toSqlErr db
      = Except.ok (Db.set db a1.tableName A) := by
    rw [h1mode, h15]
    exact toSql_replace_ok A a1.tableName db
  obtain ⟨hdb1, -⟩ := load_success_spec env1 a1 db A _ h11 h12 h13 h1cred h14 ht1
  have ht2 : toSql B a2.tableName a2.ifExists env2.toSqlErr
      (load_csv_to_sql_server env1 a1 db).db
      = Except.ok (Db.set (load_csv_to_sql_server env1 a1 db).db a2.tableName B) := by
    rw [h2mode, h25]
    exact toSql_replace_ok B a2.tableName _
  obtain ⟨hdb2, -⟩ := load_success_spec env2 a2 _ B _ h21 h22 h23 h2cred h24 ht2
  constructor
  · rw [hdb1, ← ht]
    exact Db.lookup_set_self db a1.tableName A
  · rw [hdb2]
    exact Db.lookup_set_self _ a2.tableName B

/-- C7 witness: loading the three-row dataset and then the one-row dataset
into `customers` with `replace` leaves exactly the one-row dataset. -/
theorem C7_replace_drops_and_recreates_witness :
    argsTrusted.tableName = argsTrusted.tableName ∧
    argsTrusted.ifExists = IfExists.replace ∧
    envOkA.isFile argsTrusted.csvPath = true ∧
    envOkA.readCsv argsTrusted.csvPath argsTrusted.delimiter argsTrusted.encoding
      = Except.ok dsA ∧
    dsA.empty = false ∧
    envVerifyFailB.readCsv argsTrusted.csvPath argsTrusted.delimiter argsTrusted.encoding
      = Except.ok dsB ∧
    dsB.empty = false ∧
    (Db.lookup (load_csv_to_sql_server envOkA argsTrusted []).db
        argsTrusted.tableName = some dsA ∧
     Db.lookup (load_csv_to_sql_server envVerifyFailB argsTrusted
        (load_csv_to_sql_server envOkA argsTrusted []).db).db
        argsTrusted.tableName = some dsB) :=
  ⟨rfl, rfl, rfl, rfl, by decide, rfl, by decide,
    C7_replace_drops_and_recreates envOkA envVerifyFailB argsTrusted argsTrusted
      [] dsA dsB rfl rfl rfl rfl rfl (by decide) (Or.inl rfl) rfl rfl rfl rfl
      (by decide) (Or.inl rfl) rfl rfl⟩

/-- C8: in trusted mode the constructed connection descriptor — and in
fact the whole observable run — is independent of the username and
password: two runs differing only in the credentials produce the same
connection string, because the trusted branch of the construction never
reads them. -/
theorem C8_trusted_mode_ignores_credentials (env : Env) (a : Args) (db : Db)
    (u1 p1 u2 p2 : String) (h : a.trustedConnection = true) :
    (load_csv_to_sql_server env { a with username := u1, password := p1 } db).connectionString
      = (load_csv_to_sql_server env { a with username := u2, password := p2 } db).connectionString := by
  have hall : (load_csv_to_sql_server env { a with username := u1, password := p1 } db)
      = (load_csv_to_sql_server env { a with username := u2, password := p2 } db) := by
    unfold load_csv_to_sql_server runLoadPhase
    simp [h, buildConnectionString]
  rw [hall]

/-- C8 witness: empty credentials and arbitrary credentials give the same
connection string in a concrete trusted-mode run. -/
theorem C8_trusted_mode_ignores_credentials_witness :
    argsTrusted.trustedConnection = true ∧
    (load_csv_to_sql_server envOkA
        { argsTrusted with username := "", password := "" } []).connectionString
      = (load_csv_to_sql_server envOkA
          { argsTrusted with username := "alice", password := "hunter2" } []).connectionString :=
  ⟨rfl, C8_trusted_mode_ignores_credentials envOkA argsTrusted [] "" "" "alice"
    "hunter2" rfl⟩

/-- C9: `main` replaces an absent or empty `--username`/`--password` by
the hardcoded fallback pair `sa` / `P@ssw0rd!` before the procedure runs,
so no CLI invocation can ever reach the credential check's `ValueError`:
through `main`, the run never terminates with the invalid-configuration
outcome, in credential mode or otherwise. -/
theorem C9_cli_fallback_credentials_mask_check (env : Env) (c : CliArgs)
    (db : Db) :
    ((c.username = none ∨ c.username = some "") → pyOr c.username "sa" = "sa") ∧
    ((c.password = none ∨ c.password = some "") →
        pyOr c.password "P@ssw0rd!" = "P@ssw0rd!") ∧
    ∀ msg, (mainRun env c db).outcome ≠ Outcome.raisedInvalidConfig msg := by
  refine ⟨?_, ?_, ?_⟩
  · rintro (h | h) <;> simp [pyOr, h]
  · rintro (h | h) <;> simp [pyOr, h]
  · intro msg hmsg
    simp only [mainRun] at hmsg
    have h2 := invalidConfig_requires_empty_cred env _ db msg hmsg
    rcases h2.2 with h | h
    · exact pyOr_ne_empty c.username "sa" (by decide) h
    · exact pyOr_ne_empty c.password "P@ssw0rd!" (by decide) h

/-- C9 witness: with no username flag and an empty password flag, both
fallbacks kick in and a concrete CLI run does not raise the credential
error. -/
theorem C9_cli_fallback_credentials_mask_check_witness :
    pyOr cliNoCreds.username "sa" = "sa" ∧
    pyOr cliNoCreds.password "P@ssw0rd!" = "P@ssw0rd!" ∧
    (mainRun envOkA cliNoCreds []).outcome
      ≠ Outcome.raisedInvalidConfig
          "Username and password are required when not using trusted connection" :=
  ⟨(C9_cli_fallback_credentials_mask_check envOkA cliNoCreds []).1 (Or.inl rfl),
   (C9_cli_fallback_credentials_mask_check envOkA cliNoCreds []).2.1 (Or.inr rfl),
   (C9_cli_fallback_credentials_mask_check envOkA cliNoCreds []).2.2 _⟩

/-- C10: on the success path the run's closing lines are the success line
and the connection-closed line, and the count in the success line is the
parsed source dataset's row count — for every behaviour of the two
verification queries, including both failing or returning a different
count (`env.verify1`/`env.verify2` are unconstrained). -/
theorem C10_success_line_reports_source_count (env : Env) (a : Args)
    (db : Db) (df : Dataset) (db2 : Db)
    (h1 : env.isFile a.csvPath = true)
    (h2 : env.readCsv a.csvPath a.delimiter a.encoding = Except.ok df)
    (h3 : df.empty = false)
    (hcred : a.trustedConnection = true ∨ (a.username ≠ "" ∧ a.password ≠ ""))
    (h4 : env.connectErr = none)
    (h5 : toSql df a.tableName a.ifExists env.toSqlErr db = Except.ok db2) :
    ∃ pre, (load_csv_to_sql_server env a db).printed
        = pre ++ ["Successfully loaded " ++ toString df.rows.length ++
                    " rows into " ++ a.tableName,
                  "SQL Server connection closed"] :=
  (load_success_spec env a db df db2 h1 h2 h3 hcred h4 h5).2

/-- C10 witness: the verification query reports 42 rows, yet the success
line still carries the source dataset's single row. -/
theorem C10_success_line_reports_source_count_witness :
    envWrongCount.isFile argsTrusted.csvPath = true ∧
    envWrongCount.readCsv argsTrusted.csvPath argsTrusted.delimiter argsTrusted.encoding
      = Except.ok dsB ∧
    dsB.empty = false ∧
    envWrongCount.verify1 = Except.ok 42 ∧
    dsB.rows.length = 1 ∧
    ∃ pre, (load_csv_to_sql_server envWrongCount argsTrusted []).printed
        = pre ++ ["Successfully loaded " ++ toString dsB.rows.length ++
                    " rows into " ++ argsTrusted.tableName,
                  "SQL Server connection closed"] :=
  ⟨rfl, rfl, by decide, rfl, rfl,
    C10_success_line_reports_source_count envWrongCount argsTrusted [] dsB
      [("customers", dsB)] rfl rfl (by decide) (Or.inl rfl) rfl rfl⟩

end Ingest
